import Mathlib

/-!
Verification of the AES-256-CBC JavaCard host script (`scripts/reader.py`).

The script is embedded shallowly:
  * byte strings become `List Nat` (each element a byte value);
  * `pkcs7_pad` / `pkcs7_unpad` become pure Lean functions; `pkcs7_unpad`
    returns `Option` because Python raises `IndexError` on empty input
    (`data[-1]`);
  * the straight-line interactive session becomes `runProgram`, a function
    from an environment (reader list, card responses, user inputs) to a
    record of the observable outcomes: which reader was used, the APDUs
    transmitted, the status words printed, which prompts were reached, and
    the exception (if any) that terminated the process.
-/

namespace Reader

/-- `CLA = 0x80` from the script. -/
def CLA : Nat := 0x80

/-- `INS_SET_KEY = 0x10`. -/
def INS_SET_KEY : Nat := 0x10

/-- `INS_SET_IV = 0x11`. -/
def INS_SET_IV : Nat := 0x11

/-- `INS_ENCRYPT = 0x20`. -/
def INS_ENCRYPT : Nat := 0x20

/-- `INS_DECRYPT = 0x30`. -/
def INS_DECRYPT : Nat := 0x30

/-- `APPLET_AID = [0xAE, 0x25, 0x6C, 0xBC, 0x00, 0x01]`. -/
def APPLET_AID : List Nat := [0xAE, 0x25, 0x6C, 0xBC, 0x00, 0x01]

/-- `pkcs7_pad(data, block_size=16)`:
`pad_len = block_size - (len(data) % block_size); return data + bytes([pad_len] * pad_len)`.
The Python default argument `block_size=16` is passed explicitly at each
Lean call site. -/
def pkcs7_pad (data : List Nat) (block_size : Nat) : List Nat :=
  let pad_len := block_size - data.length % block_size
  data ++ List.replicate pad_len pad_len

/-- `pkcs7_unpad(data)`:
`pad_len = data[-1]; if pad_len < 1 or pad_len > 16: return data; return data[:-pad_len]`.
On empty input Python raises `IndexError` from `data[-1]`, embedded as
`none`.  `data[:-pad_len]` with `1 ≤ pad_len` is the first
`len(data) - pad_len` bytes (empty when `pad_len ≥ len(data)`). -/
def pkcs7_unpad (data : List Nat) : Option (List Nat) :=
  match data.getLast? with
  | none => none
  | some pad_len =>
    if pad_len < 1 ∨ pad_len > 16 then some data
    else some (data.take (data.length - pad_len))

/-- The ASCII bytes of `b"0123456789abcdef"`, the 16-byte scenario input. -/
def sample16 : List Nat :=
  [0x30, 0x31, 0x32, 0x33, 0x34, 0x35, 0x36, 0x37,
   0x38, 0x39, 0x61, 0x62, 0x63, 0x64, 0x65, 0x66]

/-! ## The interactive session

`scripts/reader.py` runs straight-line: list readers, pick `all_readers[1]`,
SELECT the applet, prompt for key and IV, SET_KEY, SET_IV, prompt for an
action, then encrypt or decrypt once.  The environment below supplies
everything external: the reader list, the card's response to each of the
(at most five) `transmit` calls, and the user's (already hex-decoded)
inputs. -/

/-- One card response: `connection.transmit(apdu)` returns
`(response, sw1, sw2)`. -/
structure CardResp where
  resp : List Nat
  sw1 : Nat
  sw2 : Nat
deriving DecidableEq

/-- The external world of one session: `readers()`, the card's responses in
transmission order, and the user's console inputs (hex strings already
decoded to bytes, action already stripped and lowercased). -/
structure Env where
  allReaders : List String
  selectResp : CardResp
  setKeyResp : CardResp
  setIvResp : CardResp
  setIvResp2 : CardResp
  opResp : CardResp
  key : List Nat
  iv : List Nat
  action : String
  plaintext : List Nat
  ciphertext : List Nat
deriving DecidableEq

/-- The uncaught Python exceptions the script can die with. -/
inductive ProgError where
  /-- `raise Exception("No smartcard readers found")` -/
  | noReaders : ProgError
  /-- `IndexError` from `all_readers[1]` with fewer than two readers -/
  | readerIndexOutOfBounds : ProgError
  /-- `raise Exception("Failed to select applet: …")` -/
  | selectFailed (sw1 sw2 : Nat) : ProgError
  /-- `raise Exception("Ciphertext length must be multiple of 16 bytes")` -/
  | ciphertextNotMultiple : ProgError
  /-- `IndexError` from `pkcs7_unpad` on an empty decrypt response -/
  | unpadIndexError : ProgError
deriving DecidableEq

/-- The observable outcome of one run: the reader object used, the APDUs
transmitted in order, the status words printed by `transmit` in order,
whether the key prompt and the action prompt were reached, and the
exception (if any) that ended the process. -/
structure RunOut where
  usedReader : Option String
  transmitted : List (List Nat)
  printedSW : List (Nat × Nat)
  promptedKey : Bool
  promptedAction : Bool
  error : Option ProgError
deriving DecidableEq

/-- `select_apdu = [0x00, 0xA4, 0x04, 0x00, len(APPLET_AID)] + APPLET_AID`. -/
def select_apdu : List Nat :=
  [0x00, 0xA4, 0x04, 0x00, APPLET_AID.length] ++ APPLET_AID

/-- `apdu = [CLA, INS_SET_KEY, 0x00, 0x00, len(key)] + list(key)`. -/
def key_apdu (env : Env) : List Nat :=
  [CLA, INS_SET_KEY, 0x00, 0x00, env.key.length] ++ env.key

/-- `apdu = [CLA, INS_SET_IV, 0x00, 0x00, len(iv)] + list(iv)` — built once
after the key prompt and built again, identically, before DECRYPT. -/
def iv_apdu (env : Env) : List Nat :=
  [CLA, INS_SET_IV, 0x00, 0x00, env.iv.length] ++ env.iv

/-- `apdu = [CLA, INS_ENCRYPT, 0x00, 0x00, len(padded_plaintext)] + list(padded_plaintext)`. -/
def enc_apdu (env : Env) : List Nat :=
  [CLA, INS_ENCRYPT, 0x00, 0x00, (pkcs7_pad env.plaintext 16).length]
    ++ pkcs7_pad env.plaintext 16

/-- `apdu = [CLA, INS_DECRYPT, 0x00, 0x00, len(ciphertext)] + list(ciphertext)`. -/
def dec_apdu (env : Env) : List Nat :=
  [CLA, INS_DECRYPT, 0x00, 0x00, env.ciphertext.length] ++ env.ciphertext

/-- The run from the action prompt onwards (SELECT, SET_KEY, SET_IV already
transmitted; their status words already printed). -/
def actionRun (env : Env) (reader : String) : RunOut :=
  let t3 := [select_apdu, key_apdu env, iv_apdu env]
  let p3 := [(env.selectResp.sw1, env.selectResp.sw2),
             (env.setKeyResp.sw1, env.setKeyResp.sw2),
             (env.setIvResp.sw1, env.setIvResp.sw2)]
  if env.action = "encrypt" then
    ⟨some reader, t3 ++ [enc_apdu env],
     p3 ++ [(env.opResp.sw1, env.opResp.sw2)], true, true, none⟩
  else if env.action = "decrypt" then
    if env.ciphertext.length % 16 ≠ 0 then
      ⟨some reader, t3, p3, true, true, some .ciphertextNotMultiple⟩
    else
      let t5 := t3 ++ [iv_apdu env, dec_apdu env]
      let p5 := p3 ++ [(env.setIvResp2.sw1, env.setIvResp2.sw2),
                       (env.opResp.sw1, env.opResp.sw2)]
      match pkcs7_unpad env.opResp.resp with
      | none => ⟨some reader, t5, p5, true, true, some .unpadIndexError⟩
      | some _ => ⟨some reader, t5, p5, true, true, none⟩
  else
    ⟨some reader, t3, p3, true, true, none⟩

/-- The run from SELECT onwards, on the chosen reader. -/
def sessionRun (env : Env) (reader : String) : RunOut :=
  if (env.selectResp.sw1, env.selectResp.sw2) ≠ (0x90, 0x00) then
    ⟨some reader, [select_apdu],
     [(env.selectResp.sw1, env.selectResp.sw2)], false, false,
     some (.selectFailed env.selectResp.sw1 env.selectResp.sw2)⟩
  else
    actionRun env reader

/-- The whole script:
`all_readers = readers(); if not all_readers: raise …; reader = all_readers[1]; …`. -/
def runProgram (env : Env) : RunOut :=
  if env.allReaders = [] then ⟨none, [], [], false, false, some .noReaders⟩
  else
    match env.allReaders.get? 1 with
    | none => ⟨none, [], [], false, false, some .readerIndexOutOfBounds⟩
    | some reader => sessionRun env reader

/-- `env` with the SET_KEY and SET_IV responses replaced — used to state
that the run never looks at them. -/
def withKeyIvResp (env : Env) (a b : CardResp) : Env :=
  ⟨env.allReaders, env.selectResp, a, b, env.setIvResp2, env.opResp,
   env.key, env.iv, env.action, env.plaintext, env.ciphertext⟩

/-- A successful card response with empty body. -/
def cardOK : CardResp := ⟨[], 0x90, 0x00⟩

/-- A failure card response (`0x6A82`, file not found). -/
def cardFail : CardResp := ⟨[], 0x6A, 0x82⟩

/-- A concrete two-reader encrypt session used by witnesses. -/
def env0 : Env :=
  ⟨["reader0", "reader1"], cardOK, cardOK, cardOK, cardOK, ⟨[1, 1], 0x90, 0x00⟩,
   List.replicate 32 0xAA, List.replicate 16 0xBB, "encrypt", [0x41], []⟩

/-- A concrete decrypt session whose ciphertext has length 1. -/
def envD : Env :=
  ⟨["reader0", "reader1"], cardOK, cardOK, cardOK, cardOK, ⟨[2, 2], 0x90, 0x00⟩,
   List.replicate 32 0xAA, List.replicate 16 0xBB, "decrypt", [], [0x01]⟩

/-- A concrete decrypt session whose ciphertext is one full block. -/
def envD2 : Env :=
  ⟨["reader0", "reader1"], cardOK, cardOK, cardOK, cardOK, ⟨[3, 3], 0x90, 0x00⟩,
   List.replicate 32 0xAA, List.replicate 16 0xBB, "decrypt", [],
   List.replicate 16 0x00⟩

/-- A concrete environment with exactly one reader. -/
def env1 : Env :=
  ⟨["lone-reader"], cardOK, cardOK, cardOK, cardOK, cardOK, [], [], "encrypt",
   [], []⟩

/-! ## Helper lemmas -/

/-- Helper: unpadding `d ++ [n, …, n]` (`n` copies) with `1 ≤ n ≤ 16`
recovers `d`. -/
theorem pkcs7_unpad_append_replicate (d : List Nat) (n : Nat)
    (h1 : 1 ≤ n) (h16 : n ≤ 16) :
    pkcs7_unpad (d ++ List.replicate n n) = some d := by
  obtain ⟨k, rfl⟩ : ∃ k, n = k + 1 := ⟨n - 1, by omega⟩
  have hrep : List.replicate (k + 1) (k + 1) =
      List.replicate k (k + 1) ++ [k + 1] := List.replicate_succ' k (k + 1)
  have hassoc : d ++ List.replicate (k + 1) (k + 1) =
      (d ++ List.replicate k (k + 1)) ++ [k + 1] := by
    rw [hrep, List.append_assoc]
  rw [hassoc]
  unfold pkcs7_unpad
  rw [List.getLast?_concat]
  have hcond : ¬(k + 1 < 1 ∨ k + 1 > 16) := by omega
  dsimp only
  rw [if_neg hcond]
  have hlen : ((d ++ List.replicate k (k + 1)) ++ [k + 1]).length - (k + 1)
      = d.length := by
    simp [List.length_append, List.length_replicate]
  rw [hlen, List.append_assoc]
  rw [List.take_left' rfl]

/-- Helper: a list of length at least two is a double cons. -/
theorem exists_cons_cons {l : List String} (h : 2 ≤ l.length) :
    ∃ a b t, l = a :: b :: t := by
  cases l with
  | nil => simp at h
  | cons a l1 =>
    cases l1 with
    | nil => simp at h
    | cons b t => exact ⟨a, b, t, rfl⟩

/-- Helper: with at least two readers, the run is the session on the second
reader. -/
theorem runProgram_eq_sessionRun (env : Env) (a b : String) (t : List String)
    (hr : env.allReaders = a :: b :: t) :
    runProgram env = sessionRun env b := by
  unfold runProgram
  rw [hr]
  rfl

/-- Helper: a successful SELECT continues into the action flow. -/
theorem sessionRun_ok (env : Env) (r : String)
    (hsel : (env.selectResp.sw1, env.selectResp.sw2) = (0x90, 0x00)) :
    sessionRun env r = actionRun env r := by
  unfold sessionRun
  rw [if_neg (by simp [hsel])]

/-- Helper: in every action branch the key and action prompts were reached,
the second reader object is in use, and the only possible exceptions are
the ciphertext-length error and the unpad `IndexError`. -/
theorem actionRun_fields (env : Env) (r : String) :
    (actionRun env r).promptedKey = true
    ∧ (actionRun env r).promptedAction = true
    ∧ (actionRun env r).usedReader = some r
    ∧ ((actionRun env r).error = none
       ∨ (actionRun env r).error = some ProgError.ciphertextNotMultiple
       ∨ (actionRun env r).error = some ProgError.unpadIndexError) := by
  unfold actionRun
  dsimp only
  split_ifs with h1 h2 h3
  · exact ⟨rfl, rfl, rfl, Or.inl rfl⟩
  · exact ⟨rfl, rfl, rfl, Or.inr (Or.inl rfl)⟩
  · cases hu : pkcs7_unpad env.opResp.resp with
    | none => exact ⟨rfl, rfl, rfl, Or.inr (Or.inr rfl)⟩
    | some v => exact ⟨rfl, rfl, rfl, Or.inl rfl⟩
  · exact ⟨rfl, rfl, rfl, Or.inl rfl⟩

/-- Helper: every transmitted trace is one of the five possible traces. -/
theorem transmitted_cases (env : Env) :
    (runProgram env).transmitted = []
    ∨ (runProgram env).transmitted = [select_apdu]
    ∨ (runProgram env).transmitted = [select_apdu, key_apdu env, iv_apdu env]
    ∨ (runProgram env).transmitted
        = [select_apdu, key_apdu env, iv_apdu env, enc_apdu env]
    ∨ (runProgram env).transmitted
        = [select_apdu, key_apdu env, iv_apdu env, iv_apdu env, dec_apdu env] := by
  unfold runProgram
  split_ifs with h1
  · exact Or.inl rfl
  · cases hg : env.allReaders.get? 1 with
    | none => exact Or.inl rfl
    | some r =>
      unfold sessionRun
      split_ifs with h2
      · exact Or.inr (Or.inl rfl)
      · unfold actionRun
        dsimp only
        split_ifs with h3 h4 h5
        · exact Or.inr (Or.inr (Or.inr (Or.inl rfl)))
        · exact Or.inr (Or.inr (Or.inl rfl))
        · cases hu : pkcs7_unpad env.opResp.resp with
          | none => exact Or.inr (Or.inr (Or.inr (Or.inr rfl)))
          | some v => exact Or.inr (Or.inr (Or.inr (Or.inr rfl)))
        · exact Or.inr (Or.inr (Or.inl rfl))

/-- Helper: an APDU built as `[c, i, p, q, len(x)] + x` carries its payload
length at byte index 4. -/
theorem frame_ok (c i p q : Nat) (x : List Nat) :
    5 ≤ ([c, i, p, q, x.length] ++ x).length
    ∧ ([c, i, p, q, x.length] ++ x).get? 4
        = some (([c, i, p, q, x.length] ++ x).drop 5).length := by
  constructor
  · simp
  · rfl

/-- Helper: whenever the action flow runs, the SET_KEY APDU is the second
APDU transmitted. -/
theorem actionRun_transmitted_get1 (env : Env) (r : String) :
    (actionRun env r).transmitted.get? 1 = some (key_apdu env) := by
  unfold actionRun
  dsimp only
  split_ifs with h1 h2 h3
  · rfl
  · rfl
  · cases hu : pkcs7_unpad env.opResp.resp with
    | none => rfl
    | some v => rfl
  · rfl

/-- Helper: the session never dies with the startup errors, and uses the
reader it was given. -/
theorem sessionRun_fields (env : Env) (r : String) :
    (sessionRun env r).usedReader = some r
    ∧ (sessionRun env r).error ≠ some ProgError.noReaders
    ∧ (sessionRun env r).error ≠ some ProgError.readerIndexOutOfBounds := by
  unfold sessionRun
  split_ifs with h
  · exact ⟨rfl, by simp, by simp⟩
  · obtain ⟨hk, hac, hu, herr⟩ := actionRun_fields env r
    refine ⟨hu, ?_, ?_⟩ <;>
      rcases herr with h1 | h1 | h1 <;> rw [h1] <;> simp

/-! ## The claims -/

/-- C1: for every byte sequence `d`, `pkcs7_unpad (pkcs7_pad d)` returns
`d`: padding appends between 1 and 16 bytes whose value is the count
appended, and unpadding removes exactly that many trailing bytes. -/
theorem pkcs7_pad_unpad_roundtrip (d : List Nat) :
    pkcs7_unpad (pkcs7_pad d 16) = some d := by
  have hlt : d.length % 16 < 16 := Nat.mod_lt _ (by norm_num)
  show pkcs7_unpad
      (d ++ List.replicate (16 - d.length % 16) (16 - d.length % 16)) = some d
  exact pkcs7_unpad_append_replicate d (16 - d.length % 16)
    (by omega) (by omega)

/-- C2: `pkcs7_pad data 16` appends exactly `n = 16 - (len data % 16)`
bytes, each of value `n`; `n` is always in `1..16` (a full extra block when
the input is already block-aligned, as in the 16-byte scenario producing 32
bytes); the output length is always a multiple of 16. -/
theorem pkcs7_pad_spec (data : List Nat) :
    pkcs7_pad data 16
      = data ++ List.replicate (16 - data.length % 16) (16 - data.length % 16)
    ∧ 1 ≤ 16 - data.length % 16
    ∧ 16 - data.length % 16 ≤ 16
    ∧ (pkcs7_pad data 16).length = data.length + (16 - data.length % 16)
    ∧ (pkcs7_pad data 16).length % 16 = 0
    ∧ (pkcs7_pad sample16 16).length = 32
    ∧ (pkcs7_pad sample16 16).drop 16 = List.replicate 16 0x10 := by
  have hlt : data.length % 16 < 16 := Nat.mod_lt _ (by norm_num)
  have hpad : pkcs7_pad data 16 = data ++
      List.replicate (16 - data.length % 16) (16 - data.length % 16) := rfl
  have hlen : (pkcs7_pad data 16).length
      = data.length + (16 - data.length % 16) := by
    rw [hpad]; simp [List.length_append, List.length_replicate]
  refine ⟨hpad, by omega, by omega, hlen, ?_, by decide, by decide⟩
  rw [hlen]
  omega

/-- C3 counterexample: on the empty byte sequence the code does not return
anything at all — Python's `data[-1]` raises `IndexError`, embedded as
`none` — so `pkcs7_unpad` does not have the claimed behaviour on every
byte sequence. -/
theorem pkcs7_unpad_empty_raises : pkcs7_unpad [] = none := rfl

/-- C3 (amended to nonempty input): for every nonempty byte sequence,
`pkcs7_unpad` reads the last byte `n`; if `1 ≤ n ≤ 16` it removes exactly
the trailing `n` bytes, otherwise (`n = 0` or `n > 16`) it returns the
input unchanged; and it never validates the removed bytes: the concrete
input `[0, 0, 2]` has valid last byte 2 but mismatched padding bytes, and
2 bytes are stripped anyway. -/
theorem pkcs7_unpad_spec (data : List Nat) (h : data ≠ []) :
    (1 ≤ data.getLast h ∧ data.getLast h ≤ 16 →
      pkcs7_unpad data = some (data.take (data.length - data.getLast h)))
    ∧ (data.getLast h = 0 ∨ 16 < data.getLast h →
      pkcs7_unpad data = some data)
    ∧ pkcs7_unpad [0, 0, 2] = some [0] := by
  have hlast : data.getLast? = some (data.getLast h) :=
    List.getLast?_eq_getLast data h
  refine ⟨?_, ?_, by decide⟩
  · intro hn
    unfold pkcs7_unpad
    rw [hlast]
    dsimp only
    rw [if_neg (by omega)]
  · intro hn
    unfold pkcs7_unpad
    rw [hlast]
    dsimp only
    rw [if_pos (by omega)]

/-- Witness for `pkcs7_unpad_spec` at the concrete input `[0, 0, 2]`. -/
theorem pkcs7_unpad_spec_witness :
    pkcs7_unpad [0, 0, 2] = some ([0, 0, 2].take ([0, 0, 2].length - 2)) :=
  (pkcs7_unpad_spec [0, 0, 2] (by decide)).1 (by decide)

/-- C4: with a reader available, SELECT is transmitted and the process
raises the select-failure exception exactly when the status word is not
`(0x90, 0x00)`; on `(0x90, 0x00)` it goes on to prompt for the key. -/
theorem select_status_fatal (env : Env) (h2 : 2 ≤ env.allReaders.length) :
    ((env.selectResp.sw1, env.selectResp.sw2) ≠ (0x90, 0x00) ↔
      (runProgram env).error
        = some (ProgError.selectFailed env.selectResp.sw1 env.selectResp.sw2))
    ∧ ((env.selectResp.sw1, env.selectResp.sw2) ≠ (0x90, 0x00) →
        (runProgram env).transmitted = [select_apdu]
        ∧ (runProgram env).promptedKey = false)
    ∧ ((env.selectResp.sw1, env.selectResp.sw2) = (0x90, 0x00) →
        (runProgram env).promptedKey = true) := by
  obtain ⟨a, b, t, hr⟩ := exists_cons_cons h2
  rw [runProgram_eq_sessionRun env a b t hr]
  by_cases hsel : (env.selectResp.sw1, env.selectResp.sw2) = (0x90, 0x00)
  · rw [sessionRun_ok env b hsel]
    obtain ⟨hk, hac, hu, herr⟩ := actionRun_fields env b
    refine ⟨⟨fun hne => absurd hsel hne, fun he => ?_⟩,
      fun hne => absurd hsel hne, fun _ => hk⟩
    rcases herr with h1 | h1 | h1 <;> rw [h1] at he <;> simp at he
  · unfold sessionRun
    rw [if_pos hsel]
    exact ⟨⟨fun _ => rfl, fun _ => hsel⟩, fun _ => ⟨rfl, rfl⟩,
      fun hs => absurd hs hsel⟩

/-- Witness for `select_status_fatal`: in the concrete successful session
`env0` the key prompt is reached. -/
theorem select_status_fatal_witness :
    (runProgram env0).promptedKey = true :=
  (select_status_fatal env0 (by decide)).2.2 (by decide)

/-- C5: replacing the card's SET_KEY and SET_IV responses by any other
responses changes neither the APDUs transmitted nor the final exception;
the action prompt is reached regardless, and the two status words are only
printed (they appear verbatim in the printed transcript). -/
theorem set_key_iv_status_ignored (env : Env) (a b : CardResp)
    (h2 : 2 ≤ env.allReaders.length)
    (hsel : (env.selectResp.sw1, env.selectResp.sw2) = (0x90, 0x00)) :
    (runProgram (withKeyIvResp env a b)).transmitted
      = (runProgram env).transmitted
    ∧ (runProgram (withKeyIvResp env a b)).error = (runProgram env).error
    ∧ (runProgram (withKeyIvResp env a b)).promptedAction = true
    ∧ (runProgram (withKeyIvResp env a b)).printedSW.get? 1
      = some (a.sw1, a.sw2)
    ∧ (runProgram (withKeyIvResp env a b)).printedSW.get? 2
      = some (b.sw1, b.sw2) := by
  obtain ⟨x, y, t, hr⟩ := exists_cons_cons h2
  have hr' : (withKeyIvResp env a b).allReaders = x :: y :: t := hr
  rw [runProgram_eq_sessionRun env x y t hr,
    runProgram_eq_sessionRun (withKeyIvResp env a b) x y t hr',
    sessionRun_ok env y hsel, sessionRun_ok (withKeyIvResp env a b) y hsel]
  unfold actionRun withKeyIvResp
  dsimp only
  split_ifs with h1 h2' h3
  · exact ⟨rfl, rfl, rfl, rfl, rfl⟩
  · exact ⟨rfl, rfl, rfl, rfl, rfl⟩
  · cases hu : pkcs7_unpad env.opResp.resp with
    | none => exact ⟨rfl, rfl, rfl, rfl, rfl⟩
    | some v => exact ⟨rfl, rfl, rfl, rfl, rfl⟩
  · exact ⟨rfl, rfl, rfl, rfl, rfl⟩

/-- Witness for `set_key_iv_status_ignored`: concrete session `env0` with
both responses replaced by the failure status `0x6A82`. -/
theorem set_key_iv_status_ignored_witness :
    (runProgram (withKeyIvResp env0 cardFail cardFail)).transmitted
      = (runProgram env0).transmitted
    ∧ (runProgram (withKeyIvResp env0 cardFail cardFail)).error
      = (runProgram env0).error
    ∧ (runProgram (withKeyIvResp env0 cardFail cardFail)).promptedAction = true
    ∧ (runProgram (withKeyIvResp env0 cardFail cardFail)).printedSW.get? 1
      = some (cardFail.sw1, cardFail.sw2)
    ∧ (runProgram (withKeyIvResp env0 cardFail cardFail)).printedSW.get? 2
      = some (cardFail.sw1, cardFail.sw2) :=
  set_key_iv_status_ignored env0 cardFail cardFail (by decide) (by decide)

/-- C6: in the decrypt flow, a ciphertext whose length is not a multiple
of 16 raises the fatal length exception with only SELECT, SET_KEY and
SET_IV transmitted (no IV re-set, no DECRYPT); a multiple-of-16 length
never raises that exception. -/
theorem decrypt_length_fatal (env : Env)
    (h2 : 2 ≤ env.allReaders.length)
    (hsel : (env.selectResp.sw1, env.selectResp.sw2) = (0x90, 0x00))
    (ha : env.action = "decrypt") :
    (env.ciphertext.length % 16 ≠ 0 →
      (runProgram env).error = some ProgError.ciphertextNotMultiple
      ∧ (runProgram env).transmitted = [select_apdu, key_apdu env, iv_apdu env])
    ∧ (env.ciphertext.length % 16 = 0 →
      (runProgram env).error ≠ some ProgError.ciphertextNotMultiple) := by
  obtain ⟨x, y, t, hr⟩ := exists_cons_cons h2
  rw [runProgram_eq_sessionRun env x y t hr, sessionRun_ok env y hsel]
  unfold actionRun
  dsimp only
  rw [if_neg (by rw [ha]; decide), if_pos ha]
  constructor
  · intro hlen
    rw [if_pos hlen]
    exact ⟨rfl, rfl⟩
  · intro hlen
    rw [if_neg (by omega)]
    cases hu : pkcs7_unpad env.opResp.resp with
    | none => simp
    | some v => simp

/-- Witness for `decrypt_length_fatal`: the concrete session `envD` with a
1-byte ciphertext dies with the length exception after three APDUs. -/
theorem decrypt_length_fatal_witness :
    (runProgram envD).error = some ProgError.ciphertextNotMultiple
    ∧ (runProgram envD).transmitted
      = [select_apdu, key_apdu envD, iv_apdu envD] :=
  (decrypt_length_fatal envD (by decide) (by decide) (by decide)).1 (by decide)

/-- C7: every transmitted APDU is `[CLA, INS, P1, P2, LEN]` followed by its
payload with byte index 4 equal to the payload length; with a 32-byte key
the second transmitted APDU is `80 10 00 00 20` followed by the key. -/
theorem apdu_frame_format (env : Env) :
    (∀ apdu ∈ (runProgram env).transmitted,
        5 ≤ apdu.length ∧ apdu.get? 4 = some (apdu.drop 5).length)
    ∧ (2 ≤ env.allReaders.length →
       (env.selectResp.sw1, env.selectResp.sw2) = (0x90, 0x00) →
       env.key.length = 32 →
       (runProgram env).transmitted.get? 1
         = some ([0x80, 0x10, 0x00, 0x00, 0x20] ++ env.key)) := by
  constructor
  · have hs := frame_ok 0x00 0xA4 0x04 0x00 APPLET_AID
    have hkey := frame_ok CLA INS_SET_KEY 0x00 0x00 env.key
    have hiv := frame_ok CLA INS_SET_IV 0x00 0x00 env.iv
    have henc := frame_ok CLA INS_ENCRYPT 0x00 0x00 (pkcs7_pad env.plaintext 16)
    have hdec := frame_ok CLA INS_DECRYPT 0x00 0x00 env.ciphertext
    intro apdu hmem
    rcases transmitted_cases env with h | h | h | h | h <;> rw [h] at hmem <;>
      simp only [List.mem_cons, List.not_mem_nil, or_false] at hmem
    · rcases hmem with rfl
      exact hs
    · rcases hmem with rfl | rfl | rfl
      · exact hs
      · exact hkey
      · exact hiv
    · rcases hmem with rfl | rfl | rfl | rfl
      · exact hs
      · exact hkey
      · exact hiv
      · exact henc
    · rcases hmem with rfl | rfl | rfl | rfl | rfl
      · exact hs
      · exact hkey
      · exact hiv
      · exact hiv
      · exact hdec
  · intro h2 hsel hk
    obtain ⟨x, y, t, hr⟩ := exists_cons_cons h2
    rw [runProgram_eq_sessionRun env x y t hr, sessionRun_ok env y hsel,
      actionRun_transmitted_get1 env y]
    unfold key_apdu
    rw [hk]
    rfl

/-- Witness for `apdu_frame_format`: in the concrete session `env0` (whose
key has 32 bytes) the second APDU is the SET_KEY frame. -/
theorem apdu_frame_format_witness :
    (runProgram env0).transmitted.get? 1
      = some ([0x80, 0x10, 0x00, 0x00, 0x20] ++ env0.key) :=
  (apdu_frame_format env0).2 (by decide) (by decide) (by decide)

/-- C8: in a valid decrypt flow the full trace is SELECT, SET_KEY, SET_IV,
SET_IV again, DECRYPT: the IV is re-set — with exactly the session IV
bytes — immediately before the DECRYPT APDU. -/
theorem iv_reset_before_decrypt (env : Env)
    (h2 : 2 ≤ env.allReaders.length)
    (hsel : (env.selectResp.sw1, env.selectResp.sw2) = (0x90, 0x00))
    (ha : env.action = "decrypt")
    (hc : env.ciphertext.length % 16 = 0) :
    (runProgram env).transmitted
      = [select_apdu, key_apdu env, iv_apdu env, iv_apdu env, dec_apdu env]
    ∧ (runProgram env).transmitted.get? 3 = some (iv_apdu env)
    ∧ (runProgram env).transmitted.get? 4 = some (dec_apdu env)
    ∧ iv_apdu env = [CLA, INS_SET_IV, 0x00, 0x00, env.iv.length] ++ env.iv := by
  obtain ⟨x, y, t, hr⟩ := exists_cons_cons h2
  rw [runProgram_eq_sessionRun env x y t hr, sessionRun_ok env y hsel]
  unfold actionRun
  dsimp only
  rw [if_neg (by rw [ha]; decide), if_pos ha, if_neg (by omega)]
  cases hu : pkcs7_unpad env.opResp.resp with
  | none => exact ⟨rfl, rfl, rfl, rfl⟩
  | some v => exact ⟨rfl, rfl, rfl, rfl⟩

/-- Witness for `iv_reset_before_decrypt`: the concrete one-block decrypt
session `envD2`. -/
theorem iv_reset_before_decrypt_witness :
    (runProgram envD2).transmitted
      = [select_apdu, key_apdu envD2, iv_apdu envD2, iv_apdu envD2,
         dec_apdu envD2]
    ∧ (runProgram envD2).transmitted.get? 3 = some (iv_apdu envD2)
    ∧ (runProgram envD2).transmitted.get? 4 = some (dec_apdu envD2)
    ∧ iv_apdu envD2
      = [CLA, INS_SET_IV, 0x00, 0x00, envD2.iv.length] ++ envD2.iv :=
  iv_reset_before_decrypt envD2 (by decide) (by decide) (by decide) (by decide)

/-- C9: the SELECT APDU is exactly `00 A4 04 00 06 AE 25 6C BC 00 01`; its
class byte is `0x00` while every other transmitted APDU starts with
`CLA = 0x80`. -/
theorem select_apdu_bytes (env : Env) :
    select_apdu
      = [0x00, 0xA4, 0x04, 0x00, 0x06, 0xAE, 0x25, 0x6C, 0xBC, 0x00, 0x01]
    ∧ select_apdu.get? 0 = some 0x00
    ∧ CLA = 0x80
    ∧ ∀ apdu ∈ (runProgram env).transmitted,
        apdu = select_apdu ∨ apdu.get? 0 = some CLA := by
  refine ⟨by decide, by decide, by decide, ?_⟩
  intro apdu hmem
  rcases transmitted_cases env with h | h | h | h | h <;> rw [h] at hmem <;>
    simp only [List.mem_cons, List.not_mem_nil, or_false] at hmem
  · rcases hmem with rfl
    exact Or.inl rfl
  · rcases hmem with rfl | rfl | rfl
    · exact Or.inl rfl
    · exact Or.inr rfl
    · exact Or.inr rfl
  · rcases hmem with rfl | rfl | rfl | rfl
    · exact Or.inl rfl
    · exact Or.inr rfl
    · exact Or.inr rfl
    · exact Or.inr rfl
  · rcases hmem with rfl | rfl | rfl | rfl | rfl
    · exact Or.inl rfl
    · exact Or.inr rfl
    · exact Or.inr rfl
    · exact Or.inr rfl
    · exact Or.inr rfl

/-- Witness for `select_apdu_bytes`: the concrete SELECT bytes, and the
instantiation of the quantified part at the SELECT APDU itself inside the
concrete session `env0`. -/
theorem select_apdu_bytes_witness :
    select_apdu
      = [0x00, 0xA4, 0x04, 0x00, 0x06, 0xAE, 0x25, 0x6C, 0xBC, 0x00, 0x01]
    ∧ (select_apdu = select_apdu ∨ select_apdu.get? 0 = some CLA) :=
  ⟨(select_apdu_bytes env0).1,
   (select_apdu_bytes env0).2.2.2 select_apdu (by decide)⟩

/-- C10: with no readers the process dies with the explicit exception; with
exactly one reader it dies with the `all_readers[1]` index error before
transmitting anything; with at least two readers it proceeds and uses the
second reader (`all_readers[1]`), never the first. -/
theorem reader_selection (env : Env) :
    (env.allReaders = [] →
      (runProgram env).error = some ProgError.noReaders)
    ∧ (env.allReaders.length = 1 →
      (runProgram env).error = some ProgError.readerIndexOutOfBounds
      ∧ (runProgram env).usedReader = none
      ∧ (runProgram env).transmitted = [])
    ∧ (2 ≤ env.allReaders.length →
      (runProgram env).usedReader = env.allReaders.get? 1
      ∧ (runProgram env).error ≠ some ProgError.noReaders
      ∧ (runProgram env).error ≠ some ProgError.readerIndexOutOfBounds) := by
  refine ⟨?_, ?_, ?_⟩
  · intro h
    unfold runProgram
    rw [if_pos h]
  · intro h
    obtain ⟨x, hx⟩ : ∃ x, env.allReaders = [x] := by
      cases hl : env.allReaders with
      | nil => rw [hl] at h; simp at h
      | cons a l1 =>
        cases l1 with
        | nil => exact ⟨a, rfl⟩
        | cons b t => rw [hl] at h; simp at h
    unfold runProgram
    rw [hx]
    exact ⟨rfl, rfl, rfl⟩
  · intro h2
    obtain ⟨x, y, t, hr⟩ := exists_cons_cons h2
    rw [runProgram_eq_sessionRun env x y t hr, hr]
    obtain ⟨hu, he1, he2⟩ := sessionRun_fields env y
    exact ⟨hu, he1, he2⟩

/-- Witness for `reader_selection`: the concrete one-reader environment
`env1` dies with the index error, uses no reader, transmits nothing. -/
theorem reader_selection_witness :
    (runProgram env1).error = some ProgError.readerIndexOutOfBounds
    ∧ (runProgram env1).usedReader = none
    ∧ (runProgram env1).transmitted = [] :=
  (reader_selection env1).2.1 (by decide)

end Reader
